import Mathlib

/-!
Verification of the titiler statistics request/response contract.

The repository fragment holds a tutorial notebook
(docs/src/examples/notebooks/Working_with_Statistics.ipynb) that issues
GET/POST requests against the hosted `/info` and `/statistics` endpoints,
and the packaging manifest src/titiler/extensions/pyproject.toml.  The
statistics engine itself is not part of the fragment, so the service side
below is modelled from the specification's request/response contract; the
manifest is embedded directly from its source text.
-/

namespace Titiler

/-- Modelled from the spec: a bounding box of four numbers (the spec's
"bounds (bounding box of 4 floats)"; rationals stand in for the doubles). -/
structure BBox where
  minx : ℚ
  miny : ℚ
  maxx : ℚ
  maxy : ℚ
deriving DecidableEq, Repr

/-- Modelled from the spec: two boxes intersect when they overlap on both
axes.  Used to detect an empty intersection between an AOI and the asset
extent. -/
def BBox.intersects (a b : BBox) : Bool :=
  decide (a.minx ≤ b.maxx) && decide (b.minx ≤ a.maxx) &&
  decide (a.miny ≤ b.maxy) && decide (b.miny ≤ a.maxy)

/-- Modelled from the spec: an Area-of-Interest, "a GeoJSON Feature or
FeatureCollection (polygon geometry) restricting statistics computation to
a spatial subset"; the geometry is abstracted to its bounding box, which is
all the contract's empty-intersection test consults. -/
structure AOI where
  bbox : BBox
deriving DecidableEq, Repr

/-- Modelled from the spec: a remote raster asset.  `bands` holds the pixel
values of each stored band (rationals stand in for the doubles). -/
structure Asset where
  url : String
  bounds : BBox
  crs : String
  bandDescriptions : List String
  bands : List (List ℚ)
  overviews : List ℕ
  width : ℕ
  height : ℕ
deriving DecidableEq, Repr

/-- Modelled from the spec: the Info Result — "bounds, coordinate-reference-
system identifier, band descriptions, band count, overview levels,
width/height". -/
structure InfoResult where
  bounds : BBox
  crs : String
  band_descriptions : List String
  count : ℕ
  overviews : List ℕ
  width : ℕ
  height : ℕ
deriving DecidableEq, Repr

/-- Modelled from the spec: the `/info` metadata query, which reports the
asset's metadata, the band count being the number of stored bands. -/
def infoQuery (a : Asset) : InfoResult :=
  { bounds := a.bounds
    crs := a.crs
    band_descriptions := a.bandDescriptions
    count := a.bands.length
    overviews := a.overviews
    width := a.width
    height := a.height }

/-- Modelled from the spec: a band-math formula "referencing bands as `b1`,
`b2`, …" with the arithmetic the spec's example `(b2-b1)/(b1+b2-b3)`
uses.  Band references are 1-based. -/
inductive Expr where
  | band : ℕ → Expr
  | const : ℚ → Expr
  | add : Expr → Expr → Expr
  | sub : Expr → Expr → Expr
  | mul : Expr → Expr → Expr
  | div : Expr → Expr → Expr
deriving DecidableEq, Repr

/-- Every band reference of the expression is within 1..n. -/
def Expr.bandsOk (n : ℕ) : Expr → Bool
  | .band i => decide (1 ≤ i) && decide (i ≤ n)
  | .const _ => true
  | .add a b => a.bandsOk n && b.bandsOk n
  | .sub a b => a.bandsOk n && b.bandsOk n
  | .mul a b => a.bandsOk n && b.bandsOk n
  | .div a b => a.bandsOk n && b.bandsOk n

/-- Value of the expression at pixel `px`, reading band `bi` from the stored
bands (1-based). -/
def Expr.evalAt (bands : List (List ℚ)) (px : ℕ) : Expr → ℚ
  | .band i => (((bands[i - 1]?).getD [])[px]?).getD 0
  | .const q => q
  | .add a b => a.evalAt bands px + b.evalAt bands px
  | .sub a b => a.evalAt bands px - b.evalAt bands px
  | .mul a b => a.evalAt bands px * b.evalAt bands px
  | .div a b => a.evalAt bands px / b.evalAt bands px

/-- Modelled from the spec: the derived band obtained "by evaluating a
band-math expression … rather than over raw stored bands", one value per
pixel of the first stored band. -/
def derivedBand (bands : List (List ℚ)) (e : Expr) : List ℚ :=
  (List.range ((bands.headD []).length)).map (fun px => e.evalAt bands px)

/-- Minimum of a list of rationals (0 for the empty list). -/
def listMin : List ℚ → ℚ
  | [] => 0
  | [x] => x
  | x :: y :: r => min x (listMin (y :: r))

/-- Maximum of a list of rationals (0 for the empty list). -/
def listMax : List ℚ → ℚ
  | [] => 0
  | [x] => x
  | x :: y :: r => max x (listMax (y :: r))

/-- Sum of a list of rationals. -/
def listSum (l : List ℚ) : ℚ := l.foldr (· + ·) 0

/-- Insertion into a sorted list, for the order statistics. -/
def insertSorted (x : ℚ) : List ℚ → List ℚ
  | [] => [x]
  | y :: ys => if x ≤ y then x :: y :: ys else y :: insertSorted x ys

/-- Insertion sort on rationals. -/
def sortQ (l : List ℚ) : List ℚ := l.foldr insertSorted []

/-- Modelled from the spec: the histogram's bin edges — `bins + 1` evenly
spaced values from the lower to the upper bound. -/
def histEdges (lo hi : ℚ) (bins : ℕ) : List ℚ :=
  (List.range (bins + 1)).map (fun (i : ℕ) => lo + (hi - lo) * (i : ℚ) / (bins : ℚ))

/-- Modelled from the spec: the histogram's bin counts, one per bucket; the
last bucket includes its upper edge. -/
def histCounts (lo hi : ℚ) (bins : ℕ) (vals : List ℚ) : List ℕ :=
  (List.range bins).map (fun (i : ℕ) =>
    (vals.filter (fun v =>
      decide (lo + (hi - lo) * (i : ℚ) / (bins : ℚ) ≤ v) &&
      (if i + 1 = bins then decide (v ≤ hi)
       else decide (v < lo + (hi - lo) * ((i : ℚ) + 1) / (bins : ℚ))))).length)

/-- Modelled from the spec: a histogram, a "pair of ordered sequences: bin
edges and bin counts". -/
structure Histogram where
  edges : List ℚ
  counts : List ℕ
deriving DecidableEq, Repr

/-- Modelled from the spec: the per-band statistics record {min, max, mean,
count, sum, median, percentiles, histogram}.  The standard deviation is
omitted because it is irrational in general; no claim mentions it. -/
structure BandStats where
  min : ℚ
  max : ℚ
  mean : ℚ
  count : ℕ
  sum : ℚ
  median : ℚ
  p2 : ℚ
  p98 : ℚ
  histogram : Histogram
deriving DecidableEq, Repr

/-- Modelled from the spec: summary statistics of a list of pixel values.
When `hrange` is supplied it overrides the natural min/max as the
histogram's bucketing range. -/
def computeStats (vals : List ℚ) (hrange : Option (ℚ × ℚ)) (bins : ℕ) : BandStats :=
  let n := vals.length
  let mn := listMin vals
  let mx := listMax vals
  let s := listSum vals
  let sorted := sortQ vals
  let lohi := hrange.getD (mn, mx)
  { min := mn
    max := mx
    mean := if n = 0 then 0 else s / (n : ℚ)
    count := n
    sum := s
    median := (sorted[n / 2]?).getD 0
    p2 := (sorted[n * 2 / 100]?).getD 0
    p98 := (sorted[n * 98 / 100]?).getD 0
    histogram := { edges := histEdges lohi.1 lohi.2 bins
                   counts := histCounts lohi.1 lohi.2 bins vals } }

/-- Modelled from the spec: the recognized `/statistics` options —
`expression`, `histogram_range`, `bins`, `max_size`, `bands`/`asset_bidx`
(1-based subset of bands to include). -/
structure StatsOptions where
  expression : Option Expr := none
  histogram_range : Option (ℚ × ℚ) := none
  bins : Option ℕ := none
  max_size : Option ℕ := none
  bands : Option (List ℕ) := none
deriving DecidableEq, Repr

/-- Default number of histogram buckets (the spec leaves it
implementation-defined). -/
def defaultBins : ℕ := 10

/-- Effective bucket count: the requested count, at least one bucket. -/
def effectiveBins (opts : StatsOptions) : ℕ := max 1 (opts.bins.getD defaultBins)

/-- Default band selection: all stored bands, 1-based. -/
def defaultSelection (n : ℕ) : List ℕ := (List.range n).map (· + 1)

/-- Every selected band index is within 1..n. -/
def selectionValid (n : ℕ) (sel : List ℕ) : Bool :=
  sel.all (fun i => decide (1 ≤ i) && decide (i ≤ n))

/-- Modelled from the spec: the tagged service error variant — "asset-not-found
| unsupported-format | invalid-expression | empty-intersection |
invalid-band-index | unknown". -/
inductive ServiceError where
  | assetNotFound : ServiceError
  | unsupportedFormat : ServiceError
  | invalidExpression : ServiceError
  | emptyIntersection : ServiceError
  | invalidBandIndex : ServiceError
  | unknown : ServiceError
deriving DecidableEq, Repr

/-- A Statistics Result entry is keyed by the band it describes: a stored
band (1-based index) or the derived band of an expression. -/
inductive BandRef where
  | index : ℕ → BandRef
  | derived : Expr → BandRef
deriving DecidableEq, Repr

/-- One per-band entry of the Statistics Result. -/
structure StatsEntry where
  ref : BandRef
  stats : BandStats
deriving DecidableEq, Repr

/-- Modelled from the spec: the band-selection core of the `/statistics`
computation.  With an `expression` the statistics are computed on the single
derived band; otherwise one entry per selected stored band (all bands by
default); an out-of-range band reference is a distinct error. -/
def statsCore (a : Asset) (opts : StatsOptions) :
    Except ServiceError (List StatsEntry) :=
  match opts.expression with
  | some e =>
      if e.bandsOk a.bands.length then
        .ok [⟨.derived e,
              computeStats (derivedBand a.bands e) opts.histogram_range
                (effectiveBins opts)⟩]
      else .error .invalidBandIndex
  | none =>
      let sel := opts.bands.getD (defaultSelection a.bands.length)
      if selectionValid a.bands.length sel then
        .ok (sel.map (fun i =>
          ⟨.index i,
           computeStats ((a.bands[i - 1]?).getD []) opts.histogram_range
             (effectiveBins opts)⟩))
      else .error .invalidBandIndex

/-- Modelled from the spec: the `/statistics` query.  An Area-of-Interest
whose geometry does not intersect the asset's extent is a distinct semantic
error ("empty intersection between AOI and asset extent"), never an empty
success. -/
def statisticsQuery (a : Asset) (opts : StatsOptions) (aoi : Option AOI) :
    Except ServiceError (List StatsEntry) :=
  match aoi with
  | some g =>
      if g.bbox.intersects a.bounds then statsCore a opts
      else .error .emptyIntersection
  | none => statsCore a opts

/-! Client-side request dispatch, modelled from the spec's contract for the
notebook's httpx calls: request building, per-call timeout, and response
handling. -/

/-- HTTP verbs the contract uses. -/
inductive Verb where
  | get : Verb
  | post : Verb
deriving DecidableEq, Repr

/-- Modelled from the spec: errors "raised before any network call" —
malformed URL or malformed expression. -/
inductive ClientError where
  | malformedUrl : ClientError
  | malformedExpression : ClientError
deriving DecidableEq, Repr

/-- One character list is a prefix of another. -/
def isPrefixChars : List Char → List Char → Bool
  | [], _ => true
  | _ :: _, [] => false
  | p :: ps, c :: cs => p == c && isPrefixChars ps cs

/-- Modelled from the spec: syntactic URL validity — an http or https scheme
followed by a nonempty remainder. -/
def validUrl (s : String) : Bool :=
  (isPrefixChars "http://".data s.data && decide (7 < s.data.length)) ||
  (isPrefixChars "https://".data s.data && decide (8 < s.data.length))

/-- Textual form of an expression for the query string. -/
def Expr.render : Expr → String
  | .band i => "b" ++ toString i
  | .const q => toString q
  | .add a b => "(" ++ a.render ++ "+" ++ b.render ++ ")"
  | .sub a b => "(" ++ a.render ++ "-" ++ b.render ++ ")"
  | .mul a b => "(" ++ a.render ++ "*" ++ b.render ++ ")"
  | .div a b => "(" ++ a.render ++ "/" ++ b.render ++ ")"

/-- Query-string rendering of the recognized options (present ones only). -/
def renderOpts (opts : StatsOptions) : List (String × String) :=
  (match opts.expression with
   | some e => [("expression", e.render)]
   | none => []) ++
  (match opts.histogram_range with
   | some p => [("histogram_range", toString p.1 ++ "," ++ toString p.2)]
   | none => []) ++
  (match opts.bins with
   | some b => [("histogram_bins", toString b)]
   | none => []) ++
  (match opts.max_size with
   | some m => [("max_size", toString m)]
   | none => []) ++
  (match opts.bands with
   | some bs => [("bidx", String.intercalate "," (bs.map toString))]
   | none => [])

/-- A dispatched HTTP request: verb, path, query parameters, optional
geometry body, and the caller-specified timeout. -/
structure Request where
  verb : Verb
  path : String
  query : List (String × String)
  body : Option AOI
  timeout : ℕ
deriving DecidableEq, Repr

/-- Modelled from the spec: building the `/statistics` request.  A malformed
URL is rejected before any request exists; an Area-of-Interest switches the
verb to POST with the geometry as the payload body while every other option
stays in the query string. -/
def buildStatisticsRequest (endpoint url : String) (opts : StatsOptions)
    (aoi : Option AOI) (timeout : ℕ) : Except ClientError Request :=
  if validUrl url then
    .ok { verb := if aoi.isSome then .post else .get
          path := endpoint ++ "/statistics"
          query := ("url", url) :: renderOpts opts
          body := aoi
          timeout := timeout }
  else .error .malformedUrl

/-- Modelled from the spec: building the `/info` request (GET, no body). -/
def buildInfoRequest (endpoint url : String) (timeout : ℕ) :
    Except ClientError Request :=
  if validUrl url then
    .ok { verb := .get
          path := endpoint ++ "/info"
          query := [("url", url)]
          body := none
          timeout := timeout }
  else .error .malformedUrl

/-- The decoded body of an HTTP response: a Statistics Result, an Info
Result, a structured error body, or something that parses as none of
those. -/
inductive ResponseBody where
  | statsResult : List StatsEntry → ResponseBody
  | infoResult : InfoResult → ResponseBody
  | errorBody : ServiceError → ResponseBody
  | malformed : ResponseBody
deriving DecidableEq, Repr

/-- An HTTP response: status code and decoded body. -/
structure HttpResponse where
  status : ℕ
  body : ResponseBody
deriving DecidableEq, Repr

/-- Modelled from the spec: the error taxonomy a call surfaces — client-side
validation errors, transport errors, the distinct "deadline exceeded" kind,
and service-reported semantic errors re-raised as typed errors. -/
inductive CallError where
  | client : ClientError → CallError
  | transport : CallError
  | deadlineExceeded : CallError
  | service : ServiceError → CallError
deriving DecidableEq, Repr

/-- The outcome the network delivers for a request: a response arriving at
some time, or no connection at all. -/
inductive NetOutcome where
  | response : ℕ → HttpResponse → NetOutcome
  | unreachable : NetOutcome
deriving DecidableEq, Repr

/-- A status code in the 2xx success class. -/
def is2xx (s : ℕ) : Bool := decide (200 ≤ s) && decide (s < 300)

/-- Modelled from the spec: deliver the request and wait; an unreachable
network is a transport error and a response arriving after the caller's
timeout is the distinct deadline-exceeded error. -/
def sendWithTimeout (req : Request) (net : Request → NetOutcome) :
    Except CallError HttpResponse :=
  match net req with
  | .unreachable => .error .transport
  | .response t resp =>
      if req.timeout < t then .error .deadlineExceeded else .ok resp

/-- Modelled from the spec: decode a `/statistics` response.  A 2xx response
yields its Statistics Result; a non-2xx response's structured error body is
re-raised as a typed error and is never delivered as a result. -/
def handleStatsResponse (r : HttpResponse) :
    Except CallError (List StatsEntry) :=
  if is2xx r.status then
    match r.body with
    | .statsResult res => .ok res
    | _ => .error (.service .unknown)
  else
    match r.body with
    | .errorBody e => .error (.service e)
    | _ => .error (.service .unknown)

/-- Modelled from the spec: decode an `/info` response, same policy. -/
def handleInfoResponse (r : HttpResponse) : Except CallError InfoResult :=
  if is2xx r.status then
    match r.body with
    | .infoResult res => .ok res
    | _ => .error (.service .unknown)
  else
    match r.body with
    | .errorBody e => .error (.service e)
    | _ => .error (.service .unknown)

/-- Modelled from the spec: the full client-side `/statistics` call — build
the request (client-side validation first), send it with the caller's
timeout, decode the response. -/
def statisticsCall (endpoint url : String) (opts : StatsOptions)
    (aoi : Option AOI) (timeout : ℕ) (net : Request → NetOutcome) :
    Except CallError (List StatsEntry) :=
  match buildStatisticsRequest endpoint url opts aoi timeout with
  | .error e => .error (.client e)
  | .ok req =>
      match sendWithTimeout req net with
      | .error e => .error e
      | .ok resp => handleStatsResponse resp

/-- Modelled from the spec: the full client-side `/info` call. -/
def infoCall (endpoint url : String) (timeout : ℕ)
    (net : Request → NetOutcome) : Except CallError InfoResult :=
  match buildInfoRequest endpoint url timeout with
  | .error e => .error (.client e)
  | .ok req =>
      match sendWithTimeout req net with
      | .error e => .error e
      | .ok resp => handleInfoResponse resp

/-! A server holding an asset, for the idempotence contract: each
`/statistics` call is read-only, so the server state never changes and
repeated identical requests return identical results. -/

/-- Modelled from the spec: the service's state — the hosted asset ("given
an unchanged asset"). -/
structure Server where
  asset : Asset
deriving DecidableEq, Repr

/-- Modelled from the spec: one `/statistics` call against the server; the
call computes its result and leaves the state as it was ("no side
effects"). -/
def serverStep (s : Server) (opts : StatsOptions) (aoi : Option AOI) :
    Except ServiceError (List StatsEntry) × Server :=
  (statisticsQuery s.asset opts aoi, s)

/-- Repeat the identical `/statistics` call `n` times, threading the server
state through, and collect every result. -/
def runRepeated (s : Server) (opts : StatsOptions) (aoi : Option AOI) :
    ℕ → List (Except ServiceError (List StatsEntry)) × Server
  | 0 => ([], s)
  | n + 1 =>
      let p := serverStep s opts aoi
      let rest := runRepeated p.2 opts aoi n
      (p.1 :: rest.1, rest.2)

/-! The packaging manifest src/titiler/extensions/pyproject.toml, embedded
from its source text, with a small semantics of version specifiers
(`==x.y.z`, `>=a.b`, `<c.d`, comma-separated conjunction, components
compared numerically with zero-padding). -/

namespace Manifest

/-- The manifest's `requires-python` value (pyproject.toml line 5). -/
def requiresPython : String := ">=3.8"

/-- The manifest's `project.dependencies` (pyproject.toml lines 33-35). -/
def dependencies : List String := ["titiler.core==0.19.2"]

/-- The manifest's `test` extra (pyproject.toml lines 38-44). -/
def optionalTest : List String :=
  ["pytest", "pytest-cov", "pytest-asyncio", "httpx",
   "pystac[validation]>=1.0.0,<2.0.0"]

/-- The manifest's `cogeo` extra (pyproject.toml lines 45-47). -/
def optionalCogeo : List String := ["rio-cogeo>=5.0,<6.0"]

/-- The manifest's `stac` extra (pyproject.toml lines 48-50). -/
def optionalStac : List String := ["rio-stac>=0.8,<0.9"]

/-- A version-specifier comparison operator. -/
inductive ReqOp where
  | eq : ReqOp
  | ne : ReqOp
  | ge : ReqOp
  | le : ReqOp
  | gt : ReqOp
  | lt : ReqOp
deriving DecidableEq, Repr

/-- Split a character list on a separator character. -/
def splitOnChar (sep : Char) : List Char → List (List Char)
  | [] => [[]]
  | c :: r =>
      let rest := splitOnChar sep r
      if c = sep then [] :: rest
      else
        match rest with
        | [] => [[c]]
        | g :: gs => (c :: g) :: gs

/-- Decimal number from a nonempty run of digits. -/
def charsToNat : List Char → Option ℕ
  | [] => none
  | l =>
      if l.all Char.isDigit then
        some (l.foldl (fun acc c => acc * 10 + (c.toNat - 48)) 0)
      else none

/-- A dotted version string as its numeric components. -/
def parseVersionChars (l : List Char) : Option (List ℕ) :=
  (splitOnChar '.' l).mapM charsToNat

/-- One specifier clause: operator prefix then a version. -/
def parseClauseChars : List Char → Option (ReqOp × List ℕ)
  | '>' :: '=' :: r => (parseVersionChars r).map (fun v => (ReqOp.ge, v))
  | '<' :: '=' :: r => (parseVersionChars r).map (fun v => (ReqOp.le, v))
  | '=' :: '=' :: r => (parseVersionChars r).map (fun v => (ReqOp.eq, v))
  | '!' :: '=' :: r => (parseVersionChars r).map (fun v => (ReqOp.ne, v))
  | '>' :: r => (parseVersionChars r).map (fun v => (ReqOp.gt, v))
  | '<' :: r => (parseVersionChars r).map (fun v => (ReqOp.lt, v))
  | _ => none

/-- A character that starts a specifier clause. -/
def specChar (c : Char) : Bool :=
  c = '<' || c = '>' || c = '=' || c = '!'

/-- A requirement string as its distribution name and specifier clauses
(no clauses when the string is a bare name). -/
def parseRequirement (s : String) : Option (String × List (ReqOp × List ℕ)) :=
  let name := s.data.takeWhile (fun c => !specChar c)
  let rest := s.data.dropWhile (fun c => !specChar c)
  if rest.isEmpty then some (String.mk name, [])
  else
    ((splitOnChar ',' rest).mapM parseClauseChars).map
      (fun cs => (String.mk name, cs))

/-- Every component is zero. -/
def allZero : List ℕ → Bool
  | [] => true
  | b :: tb => b == 0 && allZero tb

/-- Numeric comparison of version component lists, the shorter padded with
zeros (so 5.0 and 5.0.0 compare equal). -/
def vcmp : List ℕ → List ℕ → Ordering
  | [], tb => if allZero tb then Ordering.eq else Ordering.lt
  | a :: ta, [] => if allZero (a :: ta) then Ordering.eq else Ordering.gt
  | a :: ta, b :: tb =>
      if a < b then Ordering.lt
      else if b < a then Ordering.gt
      else vcmp ta tb

/-- A version satisfies one clause. -/
def satisfiesClause (v : List ℕ) (c : ReqOp × List ℕ) : Bool :=
  match c.1 with
  | ReqOp.eq => vcmp v c.2 == Ordering.eq
  | ReqOp.ne => vcmp v c.2 != Ordering.eq
  | ReqOp.ge => vcmp v c.2 != Ordering.lt
  | ReqOp.le => vcmp v c.2 != Ordering.gt
  | ReqOp.gt => vcmp v c.2 == Ordering.gt
  | ReqOp.lt => vcmp v c.2 == Ordering.lt

/-- A version satisfies every clause of a specifier. -/
def satisfies (v : List ℕ) (cs : List (ReqOp × List ℕ)) : Bool :=
  cs.all (satisfiesClause v)

end Manifest

/-! Concrete inputs used by the witnesses and the counterexample. -/

/-- A two-band demo asset. -/
def exAsset : Asset where
  url := "https://example.com/demo.tif"
  bounds := ⟨0, 0, 10, 10⟩
  crs := "EPSG:4326"
  bandDescriptions := ["red", "green"]
  bands := [[1, 2], [3, 4]]
  overviews := [2]
  width := 2
  height := 1

/-- A three-band demo asset. -/
def exAsset3 : Asset where
  url := "https://example.com/rgb.tif"
  bounds := ⟨0, 0, 10, 10⟩
  crs := "EPSG:4326"
  bandDescriptions := ["red", "green", "blue"]
  bands := [[1, 2], [3, 4], [5, 6]]
  overviews := [2]
  width := 2
  height := 1

/-- An Area-of-Interest inside the demo asset's bounds. -/
def exAOI : AOI := ⟨⟨2, 2, 5, 5⟩⟩

/-- An Area-of-Interest entirely outside the demo asset's bounds. -/
def exAOIFar : AOI := ⟨⟨20, 20, 30, 30⟩⟩

/-- Default options. -/
def exOptsDefault : StatsOptions := {}

/-- Options selecting only the first band. -/
def exOptsSubset : StatsOptions := { bands := some [1] }

/-- A band-math expression over two bands, (b2 - b1) / (b1 + b2). -/
def exExpr : Expr :=
  Expr.div (Expr.sub (Expr.band 2) (Expr.band 1))
    (Expr.add (Expr.band 1) (Expr.band 2))

/-- Options carrying the demo expression. -/
def exOptsExpr : StatsOptions := { expression := some exExpr }

/-- Options carrying histogram_range = -1,1 and two buckets. -/
def exOptsHist : StatsOptions := { histogram_range := some (-1, 1), bins := some 2 }

/-- The Statistics Result of the demo asset under default options. -/
def exDefaultEntries : List StatsEntry :=
  [⟨.index 1, computeStats [1, 2] none 10⟩,
   ⟨.index 2, computeStats [3, 4] none 10⟩]

/-- The Statistics Result of the three-band asset under the expression. -/
def exExprEntries : List StatsEntry :=
  [⟨.derived exExpr, computeStats (derivedBand exAsset3.bands exExpr) none 10⟩]

/-- The Statistics Result of the demo asset under the histogram options. -/
def exHistEntries : List StatsEntry :=
  [⟨.index 1, computeStats [1, 2] (some (-1, 1)) 2⟩,
   ⟨.index 2, computeStats [3, 4] (some (-1, 1)) 2⟩]

/-- The first entry of that result. -/
def exHistEntry : StatsEntry := ⟨.index 1, computeStats [1, 2] (some (-1, 1)) 2⟩

/-- The request the client builds for the AOI-bearing statistics call. -/
def exReq : Request where
  verb := .post
  path := "https://titiler.xyz/cog" ++ "/statistics"
  query := [("url", "https://example.com/demo.tif")]
  body := some exAOI
  timeout := 20

/-- A structured 404 error response. -/
def exResp404 : HttpResponse := ⟨404, .errorBody .assetNotFound⟩

/-! Helper lemmas shared by the claim theorems. -/

/-- A successful `/statistics` call's result comes from the band-selection
core: the AOI gate only filters errors in. -/
theorem statisticsQuery_ok_core (a : Asset) (opts : StatsOptions)
    (aoi : Option AOI) (r : List StatsEntry)
    (h : statisticsQuery a opts aoi = .ok r) : statsCore a opts = .ok r := by
  cases aoi with
  | none => exact h
  | some g =>
      simp only [statisticsQuery] at h
      by_cases hg : g.bbox.intersects a.bounds = true
      · rwa [if_pos hg] at h
      · rw [if_neg hg] at h
        exact Except.noConfusion h

/-- The default band selection passes validation. -/
theorem selectionValid_default (n : ℕ) :
    selectionValid n (defaultSelection n) = true := by
  simp only [selectionValid, defaultSelection, List.all_eq_true]
  intro i hi
  simp only [List.mem_map, List.mem_range] at hi
  obtain ⟨j, hj, rfl⟩ := hi
  simp only [Bool.and_eq_true, decide_eq_true_eq]
  omega

/-- Every entry of a successful core result carries statistics computed by
`computeStats` with the request's histogram range and bucket count. -/
theorem statsCore_entry_stats (a : Asset) (opts : StatsOptions)
    (r : List StatsEntry) (h : statsCore a opts = .ok r) :
    ∀ entry ∈ r, ∃ vals, entry.stats =
      computeStats vals opts.histogram_range (effectiveBins opts) := by
  intro entry hm
  cases he : opts.expression with
  | some e =>
      simp only [statsCore, he] at h
      split at h
      · obtain rfl := (Except.ok.inj h).symm
        rw [List.mem_singleton] at hm
        exact ⟨derivedBand a.bands e, by rw [hm]⟩
      · exact Except.noConfusion h
  | none =>
      simp only [statsCore, he] at h
      split at h
      · obtain rfl := (Except.ok.inj h).symm
        rw [List.mem_map] at hm
        obtain ⟨i, _, rfl⟩ := hm
        exact ⟨(a.bands[i - 1]?).getD [], rfl⟩
      · exact Except.noConfusion h

/-- The first bin edge is the lower bound of the range. -/
theorem histEdges_head (lo hi : ℚ) (n : ℕ) :
    (histEdges lo hi n).head? = some lo := by
  simp [histEdges, List.range_succ_eq_map]

/-- The last bin edge is the upper bound of the range. -/
theorem histEdges_getLast (lo hi : ℚ) (n : ℕ) (hn : n ≠ 0) :
    (histEdges lo hi n).getLast? = some hi := by
  have hq : (n : ℚ) ≠ 0 := Nat.cast_ne_zero.mpr hn
  have hsplit : histEdges lo hi n =
      ((List.range n).map (fun (i : ℕ) => lo + (hi - lo) * (i : ℚ) / (n : ℚ))) ++
        (lo + (hi - lo) * (n : ℚ) / (n : ℚ)) :: [] := by
    unfold histEdges
    rw [List.range_succ, List.map_append]
    rfl
  have hlast : lo + (hi - lo) * (n : ℚ) / (n : ℚ) = hi := by
    rw [mul_div_assoc, div_self hq, mul_one]
    ring
  rw [hsplit, List.getLast?_append_cons, hlast]
  simp

/-- Every bin edge lies within the range. -/
theorem histEdges_mem (lo hi : ℚ) (n : ℕ) (hn : n ≠ 0) (hle : lo ≤ hi) :
    ∀ x ∈ histEdges lo hi n, lo ≤ x ∧ x ≤ hi := by
  intro x hx
  simp only [histEdges, List.mem_map, List.mem_range] at hx
  obtain ⟨i, hi', rfl⟩ := hx
  have hnq : (0 : ℚ) < n := by
    exact_mod_cast Nat.pos_of_ne_zero hn
  have hin : (i : ℚ) ≤ n := by
    exact_mod_cast Nat.le_of_lt_succ hi'
  have h0 : 0 ≤ (hi - lo) * (i : ℚ) / n :=
    div_nonneg (mul_nonneg (sub_nonneg.mpr hle) (Nat.cast_nonneg i)) hnq.le
  have h1 : (hi - lo) * (i : ℚ) / n ≤ hi - lo := by
    rw [div_le_iff₀ hnq]
    exact mul_le_mul_of_nonneg_left hin (sub_nonneg.mpr hle)
  constructor <;> linarith

/-- The histogram edges of computed statistics with an explicit range. -/
theorem computeStats_edges (vals : List ℚ) (p : ℚ × ℚ) (bins : ℕ) :
    (computeStats vals (some p) bins).histogram.edges =
      histEdges p.1 p.2 bins := rfl

/-- The effective bucket count is never zero. -/
theorem effectiveBins_ne_zero (opts : StatsOptions) :
    effectiveBins opts ≠ 0 := by
  have : 1 ≤ effectiveBins opts := le_max_left _ _
  omega

/-- Boolean equality on Ordering agrees with propositional equality. -/
theorem ordBeq_iff (o p : Ordering) : (o == p) = true ↔ o = p := by
  cases o <;> cases p <;> decide

/-- Boolean disequality on Ordering agrees with propositional
disequality. -/
theorem ordBne_iff (o p : Ordering) : (o != p) = true ↔ o ≠ p := by
  cases o <;> cases p <;> decide

/-! The claim theorems. -/

/-- C3: a `/statistics` request uses POST exactly when an Area-of-Interest
geometry is supplied, the geometry travels as the payload body, and every
other option (asset URL, max_size, …) stays in the query string; without a
geometry the request uses GET. -/
theorem statistics_post_iff_aoi (endpoint url : String) (opts : StatsOptions)
    (aoi : Option AOI) (timeout : ℕ) (req : Request)
    (h : buildStatisticsRequest endpoint url opts aoi timeout = .ok req) :
    (req.verb = .post ↔ aoi.isSome = true) ∧
    req.body = aoi ∧
    req.query = ("url", url) :: renderOpts opts ∧
    (aoi = none → req.verb = .get) := by
  unfold buildStatisticsRequest at h
  by_cases hv : validUrl url = true
  · rw [if_pos hv] at h
    obtain rfl := (Except.ok.inj h).symm
    refine ⟨?_, rfl, rfl, ?_⟩ <;> cases aoi <;> simp
  · rw [if_neg hv] at h
    exact Except.noConfusion h

/-- C3 witness: the notebook's AOI-bearing call builds a POST request with
the geometry as body, and the same call without the geometry builds GET. -/
theorem statistics_post_iff_aoi_witness :
    buildStatisticsRequest "https://titiler.xyz/cog" "https://example.com/demo.tif"
      exOptsDefault (some exAOI) 20 = .ok exReq ∧
    (exReq.verb = .post ↔ (some exAOI).isSome = true) ∧
    exReq.body = some exAOI := by
  have hb : buildStatisticsRequest "https://titiler.xyz/cog"
      "https://example.com/demo.tif" exOptsDefault (some exAOI) 20 = .ok exReq := by
    rfl
  have H := statistics_post_iff_aoi "https://titiler.xyz/cog"
    "https://example.com/demo.tif" exOptsDefault (some exAOI) 20 exReq hb
  exact ⟨hb, H.1, H.2.1⟩

/-- C4: a `/statistics` request whose Area-of-Interest lies entirely outside
the asset's bounds signals the distinct empty-intersection error and never
returns statistics as a success value. -/
theorem statistics_empty_intersection (a : Asset) (opts : StatsOptions)
    (g : AOI) (h : g.bbox.intersects a.bounds = false) :
    statisticsQuery a opts (some g) = .error .emptyIntersection ∧
    (∀ r, statisticsQuery a opts (some g) ≠ .ok r) ∧
    ServiceError.emptyIntersection ≠ .assetNotFound ∧
    ServiceError.emptyIntersection ≠ .unsupportedFormat ∧
    ServiceError.emptyIntersection ≠ .invalidExpression ∧
    ServiceError.emptyIntersection ≠ .invalidBandIndex := by
  have h1 : statisticsQuery a opts (some g) = .error .emptyIntersection := by
    simp only [statisticsQuery]
    rw [if_neg (by simp [h])]
  refine ⟨h1, fun r hr => ?_, by simp, by simp, by simp, by simp⟩
  rw [h1] at hr
  exact Except.noConfusion hr

/-- C4 witness: an AOI box far outside the demo asset's bounds yields the
empty-intersection error. -/
theorem statistics_empty_intersection_witness :
    exAOIFar.bbox.intersects exAsset.bounds = false ∧
    statisticsQuery exAsset exOptsDefault (some exAOIFar) =
      .error .emptyIntersection :=
  ⟨by decide,
   (statistics_empty_intersection exAsset exOptsDefault exAOIFar (by decide)).1⟩

/-- C6: a call on a malformed asset URL is rejected by the client before any
network interaction: the result is the client-side malformed-URL error
whatever the network would do, so no HTTP traffic is generated. -/
theorem malformed_url_rejected_locally (endpoint url : String)
    (opts : StatsOptions) (aoi : Option AOI) (timeout : ℕ)
    (h : validUrl url = false) :
    (∀ net, statisticsCall endpoint url opts aoi timeout net =
      .error (.client .malformedUrl)) ∧
    (∀ net, infoCall endpoint url timeout net =
      .error (.client .malformedUrl)) ∧
    (∀ net net2, statisticsCall endpoint url opts aoi timeout net =
      statisticsCall endpoint url opts aoi timeout net2) := by
  have hb : buildStatisticsRequest endpoint url opts aoi timeout =
      .error .malformedUrl := by
    unfold buildStatisticsRequest
    rw [if_neg (by simp [h])]
  have hi : buildInfoRequest endpoint url timeout = .error .malformedUrl := by
    unfold buildInfoRequest
    rw [if_neg (by simp [h])]
  refine ⟨fun net => ?_, fun net => ?_, fun net net2 => ?_⟩ <;>
    simp only [statisticsCall, infoCall, hb, hi]

/-- C6 witness: a syntactically invalid URL is rejected locally, with an
unreachable network never consulted. -/
theorem malformed_url_rejected_locally_witness :
    validUrl "not-a-url" = false ∧
    statisticsCall "https://titiler.xyz/cog" "not-a-url" exOptsDefault none 10
      (fun _ => .unreachable) = .error (.client .malformedUrl) :=
  ⟨by decide,
   (malformed_url_rejected_locally "https://titiler.xyz/cog" "not-a-url"
     exOptsDefault none 10 (by decide)).1 (fun _ => .unreachable)⟩

/-- C7: a non-2xx response is never delivered as a valid Statistics or Info
Result, and a structured error body is re-raised as the corresponding typed
service error. -/
theorem non2xx_never_ok (resp : HttpResponse) (h : is2xx resp.status = false) :
    (∀ e, resp.body = .errorBody e →
      handleStatsResponse resp = .error (.service e)) ∧
    (∀ res, handleStatsResponse resp ≠ .ok res) ∧
    (∀ e, resp.body = .errorBody e →
      handleInfoResponse resp = .error (.service e)) ∧
    (∀ res, handleInfoResponse resp ≠ .ok res) := by
  refine ⟨fun e he => ?_, fun res hr => ?_, fun e he => ?_, fun res hr => ?_⟩
  · simp only [handleStatsResponse, h, he]
    rw [if_neg (by simp)]
  · simp only [handleStatsResponse, h] at hr
    rw [if_neg (by simp)] at hr
    cases hb : resp.body <;> rw [hb] at hr <;> exact Except.noConfusion hr
  · simp only [handleInfoResponse, h, he]
    rw [if_neg (by simp)]
  · simp only [handleInfoResponse, h] at hr
    rw [if_neg (by simp)] at hr
    cases hb : resp.body <;> rw [hb] at hr <;> exact Except.noConfusion hr

/-- C7 witness: a 404 with a structured asset-not-found body is re-raised as
the typed asset-not-found service error. -/
theorem non2xx_never_ok_witness :
    is2xx exResp404.status = false ∧
    handleStatsResponse exResp404 =
      .error (.service .assetNotFound) :=
  ⟨by decide, (non2xx_never_ok exResp404 (by decide)).1 .assetNotFound rfl⟩

/-- C8: every dispatched call carries the caller-specified timeout; a
response arriving after the timeout fails with the deadline-exceeded error,
a kind distinct from every server-reported, transport or client error. -/
theorem timeout_deadline_exceeded (req : Request) (net : Request → NetOutcome)
    (t : ℕ) (resp : HttpResponse) (h1 : net req = .response t resp)
    (h2 : req.timeout < t) :
    sendWithTimeout req net = .error .deadlineExceeded ∧
    (∀ e, CallError.deadlineExceeded ≠ .service e) ∧
    CallError.deadlineExceeded ≠ .transport ∧
    (∀ c, CallError.deadlineExceeded ≠ .client c) ∧
    (∀ endpoint url opts aoi T r,
      buildStatisticsRequest endpoint url opts aoi T = .ok r →
        r.timeout = T) := by
  refine ⟨?_, ?_, ?_, ?_, ?_⟩
  · simp only [sendWithTimeout, h1]
    rw [if_pos h2]
  · intro e he
    exact CallError.noConfusion he
  · intro he
    exact CallError.noConfusion he
  · intro c hc
    exact CallError.noConfusion hc
  · intro endpoint url opts aoi T r hr
    unfold buildStatisticsRequest at hr
    by_cases hv : validUrl url = true
    · rw [if_pos hv] at hr
      obtain rfl := (Except.ok.inj hr).symm
      rfl
    · rw [if_neg hv] at hr
      exact Except.noConfusion hr

/-- C8 witness: the AOI-bearing request with timeout 20 against a network
that answers at time 21 fails with deadline-exceeded. -/
theorem timeout_deadline_exceeded_witness :
    exReq.timeout < 21 ∧
    sendWithTimeout exReq (fun _ => .response 21 exResp404) =
      .error .deadlineExceeded :=
  ⟨by decide,
   (timeout_deadline_exceeded exReq (fun _ => .response 21 exResp404) 21
     exResp404 rfl (by decide)).1⟩

/-- C9: the server state is read-only under `/statistics`, so repeating the
identical request (same options, same AOI) against an unchanged asset any
number of times returns the identical result on every call. -/
theorem statistics_idempotent (s : Server) (opts : StatsOptions)
    (aoi : Option AOI) (n : ℕ) :
    (runRepeated s opts aoi n).1 =
      List.replicate n (statisticsQuery s.asset opts aoi) ∧
    (runRepeated s opts aoi n).2 = s := by
  induction n with
  | zero => exact ⟨rfl, rfl⟩
  | succ n ih =>
      simp only [runRepeated, serverStep, List.replicate]
      exact ⟨by rw [ih.1], ih.2⟩

/-- C1 (amended): with no `expression` option and no band-subset option, a
successful `/statistics` result has exactly as many per-band entries as the
Info Result's band count for the same asset. -/
theorem statistics_band_count_matches_info (a : Asset) (opts : StatsOptions)
    (aoi : Option AOI) (r : List StatsEntry) (hexpr : opts.expression = none)
    (hsub : opts.bands = none) (h : statisticsQuery a opts aoi = .ok r) :
    r.length = (infoQuery a).count := by
  have hcore := statisticsQuery_ok_core a opts aoi r h
  simp only [statsCore, hexpr, hsub, Option.getD_none] at hcore
  rw [if_pos (selectionValid_default a.bands.length)] at hcore
  obtain rfl := (Except.ok.inj hcore).symm
  simp [defaultSelection, infoQuery]

/-- C1 counterexample: the claim as stated fails when the band-subset option
is used with no expression — the two-band asset reports band count 2 from
`/info` while `/statistics` with `bidx=[1]` returns one per-band entry. -/
theorem statistics_band_count_subset_cex :
    exOptsSubset.expression = none ∧
    (infoQuery exAsset).count = 2 ∧
    (statisticsQuery exAsset exOptsSubset none).map List.length =
      Except.ok 1 :=
  ⟨rfl, rfl, rfl⟩

/-- C1 witness: under default options the two-band asset's statistics carry
two per-band entries, matching the Info Result's band count. -/
theorem statistics_band_count_matches_info_witness :
    statisticsQuery exAsset exOptsDefault none = .ok exDefaultEntries ∧
    exDefaultEntries.length = (infoQuery exAsset).count :=
  ⟨rfl,
   statistics_band_count_matches_info exAsset exOptsDefault none
     exDefaultEntries rfl rfl rfl⟩

/-- C2: with an `expression` option, a successful `/statistics` result holds
exactly one entry, keyed by the derived band, whose statistics are computed
on the derived band's values — whatever the asset's native band count. -/
theorem statistics_expression_single (a : Asset) (opts : StatsOptions)
    (aoi : Option AOI) (e : Expr) (r : List StatsEntry)
    (he : opts.expression = some e)
    (h : statisticsQuery a opts aoi = .ok r) :
    r = [⟨.derived e, computeStats (derivedBand a.bands e)
            opts.histogram_range (effectiveBins opts)⟩] ∧
    r.length = 1 := by
  have hcore := statisticsQuery_ok_core a opts aoi r h
  simp only [statsCore, he] at hcore
  split at hcore
  · obtain rfl := (Except.ok.inj hcore).symm
    exact ⟨rfl, rfl⟩
  · exact Except.noConfusion hcore

/-- C2 witness: the three-band asset with the demo expression yields exactly
one derived-band entry. -/
theorem statistics_expression_single_witness :
    exOptsExpr.expression = some exExpr ∧
    statisticsQuery exAsset3 exOptsExpr none = .ok exExprEntries ∧
    exExprEntries.length = 1 :=
  ⟨rfl, rfl,
   (statistics_expression_single exAsset3 exOptsExpr none exExpr
     exExprEntries rfl rfl).2⟩

/-- C5: when the request carries histogram_range = -1,1, every histogram in
the result has its first bin edge at -1, its last bin edge at 1, and every
edge within that range — the explicit range overrides the natural min/max. -/
theorem statistics_histogram_range (a : Asset) (opts : StatsOptions)
    (aoi : Option AOI) (r : List StatsEntry) (entry : StatsEntry)
    (hr : opts.histogram_range = some (-1, 1))
    (h : statisticsQuery a opts aoi = .ok r) (hm : entry ∈ r) :
    entry.stats.histogram.edges.head? = some (-1) ∧
    entry.stats.histogram.edges.getLast? = some 1 ∧
    ∀ x ∈ entry.stats.histogram.edges, -1 ≤ x ∧ x ≤ 1 := by
  obtain ⟨vals, hs⟩ :=
    statsCore_entry_stats a opts r (statisticsQuery_ok_core a opts aoi r h)
      entry hm
  rw [hs, hr, computeStats_edges]
  exact ⟨histEdges_head _ _ _,
    histEdges_getLast _ _ _ (effectiveBins_ne_zero opts),
    histEdges_mem _ _ _ (effectiveBins_ne_zero opts) (by norm_num)⟩

/-- C5 witness: with histogram_range = -1,1 and two buckets the demo asset's
first entry has edges that start at -1 and end at 1. -/
theorem statistics_histogram_range_witness :
    exOptsHist.histogram_range = some (-1, 1) ∧
    statisticsQuery exAsset exOptsHist none = .ok exHistEntries ∧
    exHistEntry.stats.histogram.edges.head? = some (-1) ∧
    exHistEntry.stats.histogram.edges.getLast? = some 1 := by
  have hm : exHistEntry ∈ exHistEntries := by
    unfold exHistEntry exHistEntries
    exact List.mem_cons_self _ _
  have H := statistics_histogram_range exAsset exOptsHist none exHistEntries
    exHistEntry rfl rfl hm
  exact ⟨rfl, rfl, H.1, H.2.1⟩

/-- C10: the extensions package pins titiler.core to exactly 0.19.2,
requires Python at least 3.8, and its cogeo and stac extras constrain
rio-cogeo to at least 5.0 and below 6.0 and rio-stac to at least 0.8 and
below 0.9, while no extra mentions titiler.core at all. -/
theorem extensions_dependency_pins :
    Manifest.dependencies.map Manifest.parseRequirement =
      [some ("titiler.core", [(Manifest.ReqOp.eq, [0, 19, 2])])] ∧
    (∀ v, Manifest.satisfies v [(Manifest.ReqOp.eq, [0, 19, 2])] = true ↔
      Manifest.vcmp v [0, 19, 2] = Ordering.eq) ∧
    (Manifest.satisfies [0, 19, 2] [(Manifest.ReqOp.eq, [0, 19, 2])] = true ∧
     Manifest.satisfies [0, 19, 1] [(Manifest.ReqOp.eq, [0, 19, 2])] = false ∧
     Manifest.satisfies [0, 19, 3] [(Manifest.ReqOp.eq, [0, 19, 2])] = false ∧
     Manifest.satisfies [0, 20, 0] [(Manifest.ReqOp.eq, [0, 19, 2])] = false) ∧
    Manifest.parseClauseChars Manifest.requiresPython.data =
      some (Manifest.ReqOp.ge, [3, 8]) ∧
    (∀ v, Manifest.satisfies v [(Manifest.ReqOp.ge, [3, 8])] = true ↔
      Manifest.vcmp v [3, 8] ≠ Ordering.lt) ∧
    Manifest.optionalCogeo.map Manifest.parseRequirement =
      [some ("rio-cogeo",
        [(Manifest.ReqOp.ge, [5, 0]), (Manifest.ReqOp.lt, [6, 0])])] ∧
    (∀ v, Manifest.satisfies v
        [(Manifest.ReqOp.ge, [5, 0]), (Manifest.ReqOp.lt, [6, 0])] = true ↔
      (Manifest.vcmp v [5, 0] ≠ Ordering.lt ∧
       Manifest.vcmp v [6, 0] = Ordering.lt)) ∧
    Manifest.optionalStac.map Manifest.parseRequirement =
      [some ("rio-stac",
        [(Manifest.ReqOp.ge, [0, 8]), (Manifest.ReqOp.lt, [0, 9])])] ∧
    (∀ v, Manifest.satisfies v
        [(Manifest.ReqOp.ge, [0, 8]), (Manifest.ReqOp.lt, [0, 9])] = true ↔
      (Manifest.vcmp v [0, 8] ≠ Ordering.lt ∧
       Manifest.vcmp v [0, 9] = Ordering.lt)) ∧
    ((Manifest.optionalCogeo ++ Manifest.optionalStac ++
        Manifest.optionalTest).filterMap Manifest.parseRequirement).all
      (fun p => p.1 != "titiler.core") = true := by
  refine ⟨by decide, ?_, by decide, by decide, ?_, by decide, ?_,
    by decide, ?_, by decide⟩ <;>
    intro v <;>
    simp [Manifest.satisfies, Manifest.satisfiesClause, ordBeq_iff,
      ordBne_iff, and_assoc]

end Titiler
